import Mathlib

/-!
Shallow embedding of `src/visualization.py` (flow/network rendering pipeline).

Modelling conventions:
* Geographic coordinates are carried through unchanged by the code (no
  arithmetic is performed on them), so they are modelled as integers.
* A pandas cell that may be absent (column missing) or hold `None` is an
  `Option`; the code's guard `hasattr(r, "x") and r.x is not None` collapses
  both cases to `none`.
* Python values of heterogeneous type (the `brand` column and the
  `brand_filter` argument) are modelled by `PdVal`, with `pyStr` playing the
  role of Python's `str`.
* Streamlit / pydeck side effects are reified: `st.info` calls accumulate in
  `RenderOutput.infos`, composed pydeck layers in `RenderOutput.layers`, and
  `st.pydeck_chart` is recorded by `RenderOutput.deckRendered`.
* DataFrame mutation is modelled by `plot_flows_heap`, which threads an
  explicit heap of frames: `.copy()` and filter expressions allocate fresh
  frames, column assignments (`df["col"] = ...`) mutate the frame in place.
-/

/-- The fixed colour palette `_COL` of `visualization.py`. -/
def _COL : List (List Nat) :=
  [[31, 119, 180],
   [255, 127, 14],
   [44, 160, 44],
   [214, 39, 40],
   [148, 103, 189],
   [140, 86, 75],
   [227, 119, 194],
   [127, 127, 127],
   [188, 189, 34],
   [23, 190, 207]]

/-- `def _c(i): return _COL[i % len(_COL)]` (cyclic palette lookup). -/
def _c (i : Nat) : List Nat := _COL.getD (i % _COL.length) []

/-- A Python value that can sit in the `brand` column or be passed as
`brand_filter`: a string or an integer. -/
inductive PdVal where
  | s (v : String)
  | i (v : Int)
deriving DecidableEq, Repr

/-- Python's `str` on a `PdVal`. -/
def pyStr : PdVal → String
  | .s v => v
  | .i v => toString v

/-- `astype(str)` on a brand cell; a missing value renders as `"None"`. -/
def brandStr : Option PdVal → String
  | some v => pyStr v
  | none => "None"

/-- One row of the lanes DataFrame handed to `plot_flows`.  The mandatory
columns are `lane_type` and the four coordinates; `brand`, `wh_idx` and
`tier1_idx` are optional.  The last three fields model the derived columns
(`origin_lon_lat`, `dest_lon_lat`, `rgba`) that `plot_flows` assigns; they
start out absent. -/
structure LaneRow where
  lane_type : String
  origin_lon : Int := 0
  origin_lat : Int := 0
  dest_lon : Int := 0
  dest_lat : Int := 0
  brand : Option PdVal := none
  wh_idx : Option Nat := none
  tier1_idx : Option Nat := none
  origin_lon_lat : Option (List Int) := none
  dest_lon_lat : Option (List Int) := none
  rgba : Option (List Nat) := none
deriving DecidableEq, Repr

/-- The lanes DataFrame: whether the optional `brand` column exists
(a frame-level fact in pandas), plus the rows. -/
structure LanesDF where
  hasBrand : Bool
  rows : List LaneRow
deriving DecidableEq, Repr

/-- One row of the stores DataFrame handed to `plot_network`
(`Longitude`, `Latitude`, `Warehouse` assignment index). -/
structure StoreRow where
  Longitude : Int := 0
  Latitude : Int := 0
  Warehouse : Nat
deriving DecidableEq, Repr

/-- One edge dict of `plot_network`: `{"f": ..., "t": ..., "col": ...}`. -/
structure NetEdge where
  f : List Int
  t : List Int
  col : List Nat
deriving DecidableEq, Repr

/-- One row of the warehouse-centers DataFrame after the `r,g,b` columns are
assigned (`cen_df[["r","g","b"]] = [_c(i) for i in range(len(cen_df))]`). -/
structure CenterRow where
  Lon : Int
  Lat : Int
  rgb : List Nat
deriving DecidableEq, Repr

/-- A composed pydeck layer.  `lineFlow` is the `_line_layer` of
`plot_flows` (per-row `rgba` colours, given width); `lineNet` is the
`LineLayer` of `plot_network`; the two scatter constructors are the
warehouse-centers and store `ScatterplotLayer`s. -/
inductive Layer where
  | lineFlow (data : List LaneRow) (width : Nat)
  | lineNet (data : List NetEdge) (width : Nat)
  | scatterCenters (data : List CenterRow)
  | scatterStores (data : List StoreRow)
deriving DecidableEq, Repr

/-- Number of edge primitives a layer renders. -/
def Layer.edgeCount : Layer → Nat
  | .lineFlow d _ => d.length
  | .lineNet d _ => d.length
  | _ => 0

/-- Number of point primitives a layer renders. -/
def Layer.pointCount : Layer → Nat
  | .scatterCenters d => d.length
  | .scatterStores d => d.length
  | _ => 0

/-- Reified observable effect of one render call: the `st.info` messages
emitted, the layers handed to the deck, and whether `st.pydeck_chart` ran. -/
structure RenderOutput where
  infos : List String
  layers : List Layer
  deckRendered : Bool
deriving DecidableEq, Repr

/-- Total edge primitives of a render call. -/
def RenderOutput.edgePrimitives (o : RenderOutput) : Nat :=
  (o.layers.map Layer.edgeCount).sum

/-- Total point primitives of a render call. -/
def RenderOutput.pointPrimitives (o : RenderOutput) : Nat :=
  (o.layers.map Layer.pointCount).sum

/-- The per-row RGBA resolution loop of `plot_flows` (lines 185-197):
outbound/transfer with a present `wh_idx` colour by `_c(wh_idx)+[160]`;
inbound by `tier1_idx` (alpha 140) else `wh_idx` (alpha 140); otherwise the
per-type default dictionary with gray fallback. -/
def resolveColor (r : LaneRow) : List Nat :=
  let col : Option (List Nat) :=
    if (r.lane_type = "outbound" ∨ r.lane_type = "transfer") then
      match r.wh_idx with
      | some w => some (_c w ++ [160])
      | none => none
    else if r.lane_type = "inbound" then
      match r.tier1_idx with
      | some t => some (_c t ++ [140])
      | none =>
        match r.wh_idx with
        | some w => some (_c w ++ [140])
        | none => none
    else none
  match col with
  | some c => c
  | none =>
    if r.lane_type = "outbound" then [0, 128, 255, 160]
    else if r.lane_type = "transfer" then [255, 127, 14, 180]
    else if r.lane_type = "inbound" then [44, 160, 44, 140]
    else [127, 127, 127, 140]

/-- The brand filter of `plot_flows` (lines 171-172):
`if brand_filter != "__ALL__" and "brand" in df.columns:
  df = df[df["brand"].astype(str) == str(brand_filter)]`. -/
def applyBrandFilter (bf : PdVal) (df : LanesDF) : LanesDF :=
  if bf ≠ PdVal.s "__ALL__" ∧ df.hasBrand then
    { df with rows := df.rows.filter (fun r => brandStr r.brand == pyStr bf) }
  else df

/-- The flow-type filter of `plot_flows` (line 175):
`df = df[df["lane_type"].isin(list(flow_types))]`. -/
def applyTypeFilter (fts : List String) (df : LanesDF) : LanesDF :=
  { df with rows := df.rows.filter (fun r => fts.contains r.lane_type) }

/-- Column assignment `df["origin_lon_lat"] = df[["origin_lon","origin_lat"]].values.tolist()`. -/
def addOriginCol (df : LanesDF) : LanesDF :=
  { df with rows := df.rows.map (fun r =>
      { r with origin_lon_lat := some [r.origin_lon, r.origin_lat] }) }

/-- Column assignment `df["dest_lon_lat"] = df[["dest_lon","dest_lat"]].values.tolist()`. -/
def addDestCol (df : LanesDF) : LanesDF :=
  { df with rows := df.rows.map (fun r =>
      { r with dest_lon_lat := some [r.dest_lon, r.dest_lat] }) }

/-- The colour loop plus `df["rgba"] = colors`. -/
def addRGBA (df : LanesDF) : LanesDF :=
  { df with rows := df.rows.map (fun r => { r with rgba := some (resolveColor r) }) }

/-- The filtered lane DataFrame right after the brand and flow-type filters
(the emptiness test at line 176 looks at exactly this frame). -/
def filteredDF (fts : List String) (bf : PdVal) (lanes : LanesDF) : LanesDF :=
  applyTypeFilter fts (applyBrandFilter bf lanes)

/-- The fully prepared frame: filters applied, position columns and `rgba`
column assigned. -/
def coloredDF (fts : List String) (bf : PdVal) (lanes : LanesDF) : LanesDF :=
  addRGBA (addDestCol (addOriginCol (filteredDF fts bf lanes)))

/-- The per-type sub-frame `df[df["lane_type"] == t]`. -/
def laneGroup (t : String) (df : LanesDF) : List LaneRow :=
  df.rows.filter (fun r => r.lane_type == t)

/-- The warehouse-centers scatter layer shared by `plot_network` and
`plot_flows`: one point per center, coloured `_c(i)` by position. -/
def centersLayer (centers : List (Int × Int)) : Layer :=
  .scatterCenters (centers.enum.map (fun p => ⟨p.2.1, p.2.2, _c p.1⟩))

/-- `plot_flows` over an explicit heap of frames.  `ref` is the caller's
`lanes_df`; `.copy()` and each filter expression allocate a fresh frame at
the end of the heap, while the three column assignments mutate the current
`df` frame in place via `List.set`.  Returns the final heap and the
observable render output. -/
def plot_flows_heap (heap : List LanesDF) (ref : Nat) (centers : List (Int × Int))
    (fts : List String) (bf : PdVal) : List LanesDF × RenderOutput :=
  let lanes := heap.getD ref ⟨false, []⟩
  if lanes.rows.isEmpty then
    (heap, ⟨["No lanes to display."], [], false⟩)
  else
    -- df = lanes_df.copy()
    let h1 := heap ++ [lanes]
    let r1 := heap.length
    -- brand filter (allocates only when it actually runs)
    let df2 := applyBrandFilter bf lanes
    let hr2 : List LanesDF × Nat :=
      if bf ≠ PdVal.s "__ALL__" ∧ lanes.hasBrand then (h1 ++ [df2], h1.length)
      else (h1, r1)
    -- flow type filter (always allocates a new frame)
    let df3 := applyTypeFilter fts df2
    let r3 := hr2.1.length
    let h3 := hr2.1 ++ [df3]
    if df3.rows.isEmpty then
      (h3, ⟨["No flows match the current filters."], [], false⟩)
    else
      -- the three in-place column assignments on df
      let df4 := addOriginCol df3
      let h4 := h3.set r3 df4
      let df5 := addDestCol df4
      let h5 := h4.set r3 df5
      let df6 := addRGBA df5
      let h6 := h5.set r3 df6
      -- layer composition (lines 200-236)
      let out_rows := laneGroup "outbound" df6
      let tr_rows := laneGroup "transfer" df6
      let in_rows := laneGroup "inbound" df6
      let layers :=
        (if ¬out_rows.isEmpty ∧ "outbound" ∈ fts then [Layer.lineFlow out_rows 2] else [])
        ++ (if ¬tr_rows.isEmpty ∧ "transfer" ∈ fts then [Layer.lineFlow tr_rows 3] else [])
        ++ (if ¬in_rows.isEmpty ∧ "inbound" ∈ fts then [Layer.lineFlow in_rows 1] else [])
        ++ [centersLayer centers]
      (h6, ⟨[], layers, true⟩)

/-- `plot_flows(lanes_df, centers, flow_types, brand_filter)`: the observable
output of one call (`none` models a `None` lanes_df). -/
def plot_flows (lanes_df : Option LanesDF) (centers : List (Int × Int))
    (fts : List String) (bf : PdVal) : RenderOutput :=
  match lanes_df with
  | none => ⟨["No lanes to display."], [], false⟩
  | some l => (plot_flows_heap [l] 0 centers fts bf).2

/-- `plot_network(stores, centers)`: one edge per store from the store
position to its assigned center, `_c(Warehouse)+[120]`; a store scatter
layer; a center scatter layer.  `none` models the `IndexError` that
`cen_df.iloc[int(r.Warehouse)]` raises on an out-of-range index. -/
def plot_network (stores : List StoreRow) (centers : List (Int × Int)) :
    Option RenderOutput :=
  if stores.all (fun r => decide (r.Warehouse < centers.length)) then
    some ⟨[],
      [Layer.lineNet (stores.map (fun r =>
          ⟨[r.Longitude, r.Latitude],
           [(centers.getD r.Warehouse (0, 0)).1, (centers.getD r.Warehouse (0, 0)).2],
           _c r.Warehouse ++ [120]⟩)) 2,
       Layer.scatterStores stores,
       centersLayer centers],
      true⟩
  else none

/-- The metric grid of `summary` (lines 124-133): `st.columns(4 or 2)` then
successive `cols[i].metric(label, value)` calls.  Each placement checks the
column index against the column count (an out-of-range `cols[i]` would raise,
modelled by `none`); returns the displayed (label, value) list. -/
def summaryDisplay (total out in_ trans wh : Int)
    (consider_in show_trans : Bool) : Option (List (String × Int)) :=
  let ncols : Nat := if consider_in || show_trans then 4 else 2
  let metric : Nat → String → Int → Option (String × Int) := fun i lbl v =>
    if i < ncols then some (lbl, v) else none
  do
    let m0 ← metric 0 "Outbound" out
    let acc := [("Total annual cost", total), m0]
    let st1 : List (String × Int) × Nat ←
      if consider_in then do
        let m ← metric 1 "Inbound" in_
        pure (acc ++ [m], 2)
      else pure (acc, 1)
    let st2 : List (String × Int) × Nat ←
      if show_trans then do
        let m ← metric st1.2 "Transfers" trans
        pure (st1.1 ++ [m], st1.2 + 1)
      else pure st1
    let mw ← metric st2.2 "Warehousing" wh
    pure (st2.1 ++ [mw])

/-! ## Palette lemmas -/

lemma palette_entry_bounds : ∀ k < 10, ((_COL.getD k []).length = 3 ∧
    ∀ x ∈ _COL.getD k [], x ≤ 255) := by decide

lemma _c_bounds (i : Nat) : (_c i).length = 3 ∧ ∀ x ∈ _c i, x ≤ 255 := by
  have h : i % _COL.length < 10 := Nat.mod_lt _ (by decide)
  exact palette_entry_bounds (i % _COL.length) h

/-- C8: palette lookup is cyclic with period `len(_COL) = 10` and total on
non-negative integers: `_c i = _c (i + 10)`, and every lookup lands inside
the palette. -/
theorem palette_cyclic :
    (∀ i : Nat, _c i = _c (i + _COL.length)) ∧ _COL.length = 10 ∧
    (∀ i : Nat, _c i ∈ _COL) := by
  refine ⟨fun i => ?_, by decide, fun i => ?_⟩
  · unfold _c
    rw [Nat.add_mod_right]
  · unfold _c
    have h : i % _COL.length < 10 := Nat.mod_lt _ (by decide)
    revert h
    generalize i % _COL.length = k
    intro h
    interval_cases k <;> decide

/-! ## Colour resolution -/

/-- C1: the RGBA priority of the colour loop: outbound/transfer with a
present `wh_idx` get `_c(wh_idx) ++ [160]`; inbound with a present
`tier1_idx` get `_c(tier1_idx) ++ [140]` regardless of `wh_idx`; inbound
with only `wh_idx` present get `_c(wh_idx) ++ [140]`. -/
theorem resolveColor_priority (r : LaneRow) (w t : Nat) :
    ((r.lane_type = "outbound" ∨ r.lane_type = "transfer") → r.wh_idx = some w →
        resolveColor r = _c w ++ [160]) ∧
    (r.lane_type = "inbound" → r.tier1_idx = some t →
        resolveColor r = _c t ++ [140]) ∧
    (r.lane_type = "inbound" → r.tier1_idx = none → r.wh_idx = some w →
        resolveColor r = _c w ++ [140]) := by
  refine ⟨?_, ?_, ?_⟩
  · intro h hw
    rcases h with h | h <;> simp [resolveColor, h, hw]
  · intro h ht
    simp [resolveColor, h, ht]
  · intro h ht hw
    simp [resolveColor, h, ht, hw]

/-- Witness for C1: an outbound lane with `wh_idx = 3` resolves to
`_c 3 ++ [160]`. -/
theorem resolveColor_priority_witness :
    resolveColor { lane_type := "outbound", wh_idx := some 3 } = _c 3 ++ [160] :=
  (resolveColor_priority { lane_type := "outbound", wh_idx := some 3 } 3 0).1
    (Or.inl rfl) rfl

lemma resolveColor_cases (r : LaneRow) :
    (∃ i a, (a = 160 ∨ a = 140) ∧ resolveColor r = _c i ++ [a]) ∨
    resolveColor r = [0, 128, 255, 160] ∨ resolveColor r = [255, 127, 14, 180] ∨
    resolveColor r = [44, 160, 44, 140] ∨ resolveColor r = [127, 127, 127, 140] := by
  by_cases h1 : r.lane_type = "outbound" ∨ r.lane_type = "transfer"
  · rcases h1 with h | h
    · cases hw : r.wh_idx with
      | some w => exact Or.inl ⟨w, 160, Or.inl rfl, by simp [resolveColor, h, hw]⟩
      | none => exact Or.inr (Or.inl (by simp [resolveColor, h, hw]))
    · cases hw : r.wh_idx with
      | some w => exact Or.inl ⟨w, 160, Or.inl rfl, by simp [resolveColor, h, hw]⟩
      | none => exact Or.inr (Or.inr (Or.inl (by simp [resolveColor, h, hw])))
  · by_cases h2 : r.lane_type = "inbound"
    · cases ht : r.tier1_idx with
      | some t =>
        exact Or.inl ⟨t, 140, Or.inr rfl, by simp [resolveColor, h1, h2, ht]⟩
      | none =>
        cases hw : r.wh_idx with
        | some w =>
          exact Or.inl ⟨w, 140, Or.inr rfl, by simp [resolveColor, h1, h2, ht, hw]⟩
        | none =>
          exact Or.inr (Or.inr (Or.inr (Or.inl (by simp [resolveColor, h1, h2, ht, hw]))))
    · push_neg at h1
      exact Or.inr (Or.inr (Or.inr (Or.inr (by simp [resolveColor, h1.1, h1.2, h2]))))

/-- C2: colour resolution is total — every lane row, whatever its type and
whichever optional fields are present, resolves to a 4-channel RGBA value
with channels in range, and an unknown lane type falls through to the gray
default. -/
theorem resolveColor_total (r : LaneRow) :
    (resolveColor r).length = 4 ∧ (∀ x ∈ resolveColor r, x ≤ 255) ∧
    (r.lane_type ≠ "outbound" → r.lane_type ≠ "transfer" → r.lane_type ≠ "inbound" →
      resolveColor r = [127, 127, 127, 140]) := by
  refine ⟨?_, ?_, ?_⟩
  · obtain (⟨i, a, _, h⟩ | h | h | h | h) := resolveColor_cases r
    · simp [h, (_c_bounds i).1]
    all_goals simp [h]
  · obtain (⟨i, a, ha, h⟩ | h | h | h | h) := resolveColor_cases r
    · rw [h]
      intro x hx
      rcases List.mem_append.1 hx with hx | hx
      · exact (_c_bounds i).2 x hx
      · rcases ha with ha | ha <;> simp_all
    all_goals (rw [h]; decide)
  · intro h1 h2 h3
    simp [resolveColor, h1, h2, h3]

/-- Witness for C2: a lane of unknown type `"weird"` with a present `wh_idx`
still resolves to the 4-channel gray default. -/
theorem resolveColor_total_witness :
    resolveColor { lane_type := "weird", wh_idx := some 3 } = [127, 127, 127, 140] :=
  (resolveColor_total { lane_type := "weird", wh_idx := some 3 }).2.2
    (by decide) (by decide) (by decide)

/-! ## Summary renderer -/

/-- C7: the summary always shows the grand total, "Outbound" and
"Warehousing"; it shows "Inbound" iff `consider_in` and "Transfers" iff
`show_trans`, and the column-index accesses never go out of range for any
combination of the two flags. -/
theorem summary_components (total out in_ trans wh : Int)
    (consider_in show_trans : Bool) :
    ∃ l, summaryDisplay total out in_ trans wh consider_in show_trans = some l ∧
      ("Total annual cost", total) ∈ l ∧ ("Outbound", out) ∈ l ∧
      ("Warehousing", wh) ∈ l ∧
      ((("Inbound", in_) ∈ l) ↔ consider_in = true) ∧
      ((("Transfers", trans) ∈ l) ↔ show_trans = true) := by
  cases consider_in <;> cases show_trans <;>
    simp [summaryDisplay, Prod.ext_iff]

/-! ## Flow-renderer pipeline lemmas -/

lemma resolveColor_congr (r r' : LaneRow) (h1 : r.lane_type = r'.lane_type)
    (h2 : r.wh_idx = r'.wh_idx) (h3 : r.tier1_idx = r'.tier1_idx) :
    resolveColor r = resolveColor r' := by
  unfold resolveColor
  rw [h1, h2, h3]

/-- Characterization of one `plot_flows` call on a non-`None` frame: the two
early-return paths and the composed layer list. -/
lemma plot_flows_some (lanes : LanesDF) (centers : List (Int × Int))
    (fts : List String) (bf : PdVal) :
    plot_flows (some lanes) centers fts bf =
      if lanes.rows.isEmpty then ⟨["No lanes to display."], [], false⟩
      else if (filteredDF fts bf lanes).rows.isEmpty then
        ⟨["No flows match the current filters."], [], false⟩
      else
        ⟨[],
          (if ¬(laneGroup "outbound" (coloredDF fts bf lanes)).isEmpty ∧ "outbound" ∈ fts
            then [Layer.lineFlow (laneGroup "outbound" (coloredDF fts bf lanes)) 2] else [])
          ++ (if ¬(laneGroup "transfer" (coloredDF fts bf lanes)).isEmpty ∧ "transfer" ∈ fts
            then [Layer.lineFlow (laneGroup "transfer" (coloredDF fts bf lanes)) 3] else [])
          ++ (if ¬(laneGroup "inbound" (coloredDF fts bf lanes)).isEmpty ∧ "inbound" ∈ fts
            then [Layer.lineFlow (laneGroup "inbound" (coloredDF fts bf lanes)) 1] else [])
          ++ [centersLayer centers], true⟩ := by
  show (plot_flows_heap [lanes] 0 centers fts bf).2 = _
  unfold plot_flows_heap
  simp only [List.getD_cons_zero, filteredDF, coloredDF]
  split_ifs <;> rfl

lemma filteredDF_nil (fts : List String) (bf : PdVal) (lanes : LanesDF)
    (h : lanes.rows = []) : (filteredDF fts bf lanes).rows = [] := by
  unfold filteredDF applyTypeFilter applyBrandFilter
  split_ifs <;> simp [h]

lemma coloredDF_length (fts : List String) (bf : PdVal) (lanes : LanesDF) :
    (coloredDF fts bf lanes).rows.length = (filteredDF fts bf lanes).rows.length := by
  simp [coloredDF, addRGBA, addDestCol, addOriginCol]

lemma coloredDF_mem (fts : List String) (bf : PdVal) (lanes : LanesDF)
    (r : LaneRow) (h : r ∈ (coloredDF fts bf lanes).rows) :
    ∃ r0 ∈ (filteredDF fts bf lanes).rows,
      r.lane_type = r0.lane_type ∧ r.brand = r0.brand := by
  simp only [coloredDF, addRGBA, addDestCol, addOriginCol, List.map_map,
    List.mem_map, Function.comp] at h
  obtain ⟨r0, hr0, rfl⟩ := h
  exact ⟨r0, hr0, rfl, rfl⟩

lemma filteredDF_lane_type (fts : List String) (bf : PdVal) (lanes : LanesDF)
    (r : LaneRow) (h : r ∈ (filteredDF fts bf lanes).rows) : r.lane_type ∈ fts := by
  simp only [filteredDF, applyTypeFilter, List.mem_filter] at h
  exact List.elem_iff.1 h.2

lemma filteredDF_brand (fts : List String) (bf : PdVal) (lanes : LanesDF)
    (hbf : bf ≠ PdVal.s "__ALL__") (hb : lanes.hasBrand = true)
    (r : LaneRow) (h : r ∈ (filteredDF fts bf lanes).rows) :
    brandStr r.brand = pyStr bf := by
  simp only [filteredDF, applyTypeFilter, applyBrandFilter, hbf, hb, ne_eq,
    not_false_iff, and_self, if_true, List.mem_filter] at h
  exact beq_iff_eq.1 h.1.2

/-- The rows a layer renders as lines (`df_sub` of `_line_layer`); point
layers render none. -/
def Layer.lineData : Layer → List LaneRow
  | .lineFlow d _ => d
  | _ => []

/-- Every layer `plot_flows` composes is either one of the per-type line
layers over the prepared frame, or the centers layer. -/
lemma flow_layers_mem (lanes : LanesDF) (centers : List (Int × Int))
    (fts : List String) (bf : PdVal) (l : Layer)
    (hl : l ∈ (plot_flows (some lanes) centers fts bf).layers) :
    (∃ t w, l = Layer.lineFlow (laneGroup t (coloredDF fts bf lanes)) w) ∨
    l = centersLayer centers := by
  rw [plot_flows_some] at hl
  split_ifs at hl <;>
    simp only [List.mem_append, List.mem_singleton, List.not_mem_nil,
      or_false, false_or] at hl
  all_goals aesop

lemma flow_layer_rows_sub (lanes : LanesDF) (centers : List (Int × Int))
    (fts : List String) (bf : PdVal) (l : Layer)
    (hl : l ∈ (plot_flows (some lanes) centers fts bf).layers) (fr : LaneRow)
    (hfr : fr ∈ l.lineData) : fr ∈ (coloredDF fts bf lanes).rows := by
  rcases flow_layers_mem lanes centers fts bf l hl with ⟨t, w, rfl⟩ | rfl
  · simp only [Layer.lineData] at hfr
    exact List.mem_of_mem_filter hfr
  · simp [centersLayer, Layer.lineData] at hfr

/-- C3: with an empty lanes table (or a `None` one), or a table emptied by
the brand and flow-type filters, `plot_flows` produces zero layers, emits
exactly one informational message, and returns without reaching
`st.pydeck_chart`. -/
theorem plot_flows_empty_noop (lanes_df : Option LanesDF)
    (centers : List (Int × Int)) (fts : List String) (bf : PdVal)
    (h : lanes_df = none ∨ ∃ l, lanes_df = some l ∧
        (l.rows = [] ∨ (filteredDF fts bf l).rows = [])) :
    (plot_flows lanes_df centers fts bf).layers = [] ∧
    (plot_flows lanes_df centers fts bf).infos.length = 1 ∧
    (plot_flows lanes_df centers fts bf).deckRendered = false := by
  rcases h with rfl | ⟨l, rfl, h⟩
  · exact ⟨rfl, rfl, rfl⟩
  · rw [plot_flows_some]
    rcases h with h | h
    · simp [h]
    · by_cases he : l.rows = []
      · simp [he]
      · simp [List.isEmpty_iff, he, h]

/-- Witness for C3: a call on an empty table produces no layers, one info
message, and no deck render. -/
theorem plot_flows_empty_noop_witness :
    (plot_flows (some ⟨false, []⟩) [] ["outbound"] (PdVal.s "__ALL__")).layers = [] ∧
    (plot_flows (some ⟨false, []⟩) [] ["outbound"] (PdVal.s "__ALL__")).infos.length = 1 ∧
    (plot_flows (some ⟨false, []⟩) [] ["outbound"] (PdVal.s "__ALL__")).deckRendered = false :=
  plot_flows_empty_noop (some ⟨false, []⟩) [] ["outbound"] (PdVal.s "__ALL__")
    (Or.inr ⟨⟨false, []⟩, rfl, Or.inl rfl⟩)

/-- C4: on a non-empty filtered table the composed layer list is exactly one
edge layer per lane_type group that is non-empty and enabled (widths
outbound=2, transfer=3, inbound=1, in that order, no empty layers) followed
by the single centers layer; with flow types `{"outbound"}` it is exactly
one width-2 edge layer plus the centers layer. -/
theorem plot_flows_layer_composition (lanes : LanesDF) (centers : List (Int × Int))
    (fts : List String) (bf : PdVal)
    (h : (filteredDF fts bf lanes).rows ≠ []) :
    ((plot_flows (some lanes) centers fts bf).layers =
      (if laneGroup "outbound" (coloredDF fts bf lanes) ≠ [] ∧ "outbound" ∈ fts then
        [Layer.lineFlow (laneGroup "outbound" (coloredDF fts bf lanes)) 2] else [])
      ++ (if laneGroup "transfer" (coloredDF fts bf lanes) ≠ [] ∧ "transfer" ∈ fts then
        [Layer.lineFlow (laneGroup "transfer" (coloredDF fts bf lanes)) 3] else [])
      ++ (if laneGroup "inbound" (coloredDF fts bf lanes) ≠ [] ∧ "inbound" ∈ fts then
        [Layer.lineFlow (laneGroup "inbound" (coloredDF fts bf lanes)) 1] else [])
      ++ [centersLayer centers]) ∧
    (fts = ["outbound"] → ∃ d, d ≠ [] ∧
      (plot_flows (some lanes) centers fts bf).layers =
        [Layer.lineFlow d 2, centersLayer centers]) := by
  have hne : lanes.rows ≠ [] := fun hnil => h (filteredDF_nil fts bf lanes hnil)
  have hmain : (plot_flows (some lanes) centers fts bf).layers =
      (if laneGroup "outbound" (coloredDF fts bf lanes) ≠ [] ∧ "outbound" ∈ fts then
        [Layer.lineFlow (laneGroup "outbound" (coloredDF fts bf lanes)) 2] else [])
      ++ (if laneGroup "transfer" (coloredDF fts bf lanes) ≠ [] ∧ "transfer" ∈ fts then
        [Layer.lineFlow (laneGroup "transfer" (coloredDF fts bf lanes)) 3] else [])
      ++ (if laneGroup "inbound" (coloredDF fts bf lanes) ≠ [] ∧ "inbound" ∈ fts then
        [Layer.lineFlow (laneGroup "inbound" (coloredDF fts bf lanes)) 1] else [])
      ++ [centersLayer centers] := by
    rw [plot_flows_some]
    simp [List.isEmpty_iff, hne, h]
  refine ⟨hmain, ?_⟩
  rintro rfl
  have hcne : (coloredDF ["outbound"] bf lanes).rows ≠ [] := by
    intro hnil
    apply h
    have hlen := coloredDF_length ["outbound"] bf lanes
    rw [hnil] at hlen
    exact List.length_eq_zero.1 hlen.symm
  have hall : ∀ r ∈ (coloredDF ["outbound"] bf lanes).rows, r.lane_type = "outbound" := by
    intro r hr
    obtain ⟨r0, hr0, hlt, _⟩ := coloredDF_mem _ _ _ r hr
    have hmem := filteredDF_lane_type _ _ _ r0 hr0
    rw [List.mem_singleton] at hmem
    rw [hlt, hmem]
  have hgroup : laneGroup "outbound" (coloredDF ["outbound"] bf lanes) =
      (coloredDF ["outbound"] bf lanes).rows := by
    apply List.filter_eq_self.2
    intro a ha
    simp [laneGroup, hall a ha]
  refine ⟨(coloredDF ["outbound"] bf lanes).rows, hcne, ?_⟩
  rw [hmain, hgroup]
  simp [hcne]

/-- Witness for C4: a one-row outbound table with flow types `{"outbound"}`
composes exactly one width-2 line layer plus the centers layer. -/
theorem plot_flows_layer_composition_witness :
    ∃ d, d ≠ [] ∧
      (plot_flows (some ⟨false, [{ lane_type := "outbound" }]⟩) [(7, 8)]
        ["outbound"] (PdVal.s "__ALL__")).layers =
      [Layer.lineFlow d 2, centersLayer [(7, 8)]] :=
  (plot_flows_layer_composition ⟨false, [{ lane_type := "outbound" }]⟩ [(7, 8)]
    ["outbound"] (PdVal.s "__ALL__") (by decide)).2 rfl

/-- C5 counterexample: a table holding the two distinct brand values
`PdVal.s "1"` and `PdVal.i 1`, filtered to brand `"1"`, still renders a row
of the other brand (`PdVal.i 1`) in a produced layer, because the filter
compares `str(...)` forms. -/
theorem brand_filter_distinct_values_cex :
    ∃ l ∈ (plot_flows (some ⟨true,
        [{ lane_type := "outbound", brand := some (PdVal.s "1") },
         { lane_type := "outbound", brand := some (PdVal.i 1) }]⟩)
        [] ["outbound", "transfer", "inbound"] (PdVal.s "1")).layers,
      ∃ fr ∈ l.lineData, fr.brand = some (PdVal.i 1) := by
  decide

/-- C5 amended: with a brand column present and a specific brand requested,
every row appearing in any produced layer has the string form of its brand
equal to the string form of the filter; hence rows of a brand with a
different string form are excluded from every layer. -/
theorem brand_filter_excludes (lanes : LanesDF) (centers : List (Int × Int))
    (fts : List String) (bf : PdVal)
    (hbf : bf ≠ PdVal.s "__ALL__") (hb : lanes.hasBrand = true) :
    ∀ l ∈ (plot_flows (some lanes) centers fts bf).layers,
      ∀ fr ∈ l.lineData, brandStr fr.brand = pyStr bf := by
  intro l hl fr hfr
  obtain ⟨r0, hr0, _, hbrand⟩ :=
    coloredDF_mem fts bf lanes fr (flow_layer_rows_sub lanes centers fts bf l hl fr hfr)
  rw [hbrand]
  exact filteredDF_brand fts bf lanes hbf hb r0 hr0

/-- The prepared row that survives the brand filter in the two-brand
exclusion scenario (derived columns already assigned by the pipeline). -/
def witnessRowA : LaneRow :=
  { lane_type := "outbound", brand := some (PdVal.s "a"),
    origin_lon_lat := some [0, 0], dest_lon_lat := some [0, 0],
    rgba := some [0, 128, 255, 160] }

/-- Witness for C5 (amended): in a two-brand table filtered to `"a"`, the
surviving row of the outbound layer has brand string `"a"`. -/
theorem brand_filter_excludes_witness :
    brandStr witnessRowA.brand = pyStr (PdVal.s "a") :=
  brand_filter_excludes
    ⟨true, [{ lane_type := "outbound", brand := some (PdVal.s "a") },
            { lane_type := "outbound", brand := some (PdVal.s "b") }]⟩
    [] ["outbound", "transfer", "inbound"] (PdVal.s "a") (by decide) rfl
    (Layer.lineFlow [witnessRowA] 2) (by decide)
    witnessRowA (by decide)

/-- C10: a row survives the brand filter iff the string form of its brand
equals the string form of the requested filter. -/
theorem brand_filter_string_match (df : LanesDF) (bf : PdVal)
    (h1 : bf ≠ PdVal.s "__ALL__") (h2 : df.hasBrand = true) (r : LaneRow) :
    r ∈ (applyBrandFilter bf df).rows ↔
      r ∈ df.rows ∧ brandStr r.brand = pyStr bf := by
  simp [applyBrandFilter, h1, h2, List.mem_filter]

/-- Witness for C10: a row whose brand is the integer `1` is retained by the
string filter `"1"`. -/
theorem brand_filter_string_match_witness :
    ({ lane_type := "outbound", brand := some (PdVal.i 1) } : LaneRow) ∈
      (applyBrandFilter (PdVal.s "1")
        ⟨true, [{ lane_type := "outbound", brand := some (PdVal.i 1) }]⟩).rows :=
  (brand_filter_string_match
    ⟨true, [{ lane_type := "outbound", brand := some (PdVal.i 1) }]⟩
    (PdVal.s "1") (by decide) rfl
    { lane_type := "outbound", brand := some (PdVal.i 1) }).2
    ⟨by decide, by decide⟩

/-! ## Network renderer -/

/-- C6: with all assignment indices valid, `plot_network` succeeds and
renders exactly `N` edge primitives — the `i`-th from store `i`'s position
to its assigned center's position, coloured `_c(Warehouse) ++ [120]` — and
`N + F` point primitives; both counts are invariant under any permutation
of the stores. -/
theorem plot_network_counts (stores : List StoreRow) (centers : List (Int × Int))
    (hvalid : ∀ r ∈ stores, r.Warehouse < centers.length) :
    ∃ out, plot_network stores centers = some out ∧
      out.edgePrimitives = stores.length ∧
      out.pointPrimitives = stores.length + centers.length ∧
      (∃ edges, out.layers.head? = some (Layer.lineNet edges 2) ∧
        edges.length = stores.length ∧
        (∀ i, i < stores.length → ∀ r, stores[i]? = some r → ∀ c,
          centers[r.Warehouse]? = some c →
          edges[i]? = some ⟨[r.Longitude, r.Latitude], [c.1, c.2],
            _c r.Warehouse ++ [120]⟩)) ∧
      (∀ stores2 : List StoreRow, stores2.Perm stores →
        ∃ out2, plot_network stores2 centers = some out2 ∧
          out2.edgePrimitives = stores2.length ∧
          out2.pointPrimitives = stores2.length + centers.length) := by
  have hout : ∀ st : List StoreRow, (∀ r ∈ st, r.Warehouse < centers.length) →
      plot_network st centers = some ⟨[],
        [Layer.lineNet (st.map (fun r =>
            ⟨[r.Longitude, r.Latitude],
             [(centers.getD r.Warehouse (0, 0)).1, (centers.getD r.Warehouse (0, 0)).2],
             _c r.Warehouse ++ [120]⟩)) 2,
         Layer.scatterStores st,
         centersLayer centers], true⟩ := by
    intro st hv
    have hall : st.all (fun r => decide (r.Warehouse < centers.length)) = true := by
      rw [List.all_eq_true]
      intro r hr
      exact decide_eq_true (hv r hr)
    simp [plot_network, hall]
  have hcounts : ∀ st : List StoreRow, (∀ r ∈ st, r.Warehouse < centers.length) →
      ∃ o, plot_network st centers = some o ∧
        o.edgePrimitives = st.length ∧
        o.pointPrimitives = st.length + centers.length := by
    intro st hv
    refine ⟨_, hout st hv, ?_, ?_⟩
    · simp [RenderOutput.edgePrimitives, Layer.edgeCount, centersLayer]
    · simp [RenderOutput.pointPrimitives, Layer.pointCount, centersLayer]
  refine ⟨_, hout stores hvalid, ?_, ?_, ?_, ?_⟩
  · simp [RenderOutput.edgePrimitives, Layer.edgeCount, centersLayer]
  · simp [RenderOutput.pointPrimitives, Layer.pointCount, centersLayer]
  · refine ⟨_, rfl, by simp, ?_⟩
    intro i hi r hr c hc
    rw [List.getElem?_map, hr]
    simp [List.getD_eq_getElem?_getD, hc]
  · intro stores2 hperm
    exact hcounts stores2 (fun r hr => hvalid r (hperm.mem_iff.1 hr))

/-- Witness for C6: two stores and two centers produce two edge primitives
and four point primitives. -/
theorem plot_network_counts_witness :
    ∃ out, plot_network [⟨5, 6, 1⟩, ⟨7, 8, 0⟩] [(1, 2), (3, 4)] = some out ∧
      out.edgePrimitives = 2 ∧
      out.pointPrimitives = 2 + 2 ∧
      (∃ edges, out.layers.head? = some (Layer.lineNet edges 2) ∧
        edges.length = 2 ∧
        (∀ i, i < 2 → ∀ r, [(⟨5, 6, 1⟩ : StoreRow), ⟨7, 8, 0⟩][i]? = some r → ∀ c,
          [((1 : Int), (2 : Int)), (3, 4)][r.Warehouse]? = some c →
          edges[i]? = some ⟨[r.Longitude, r.Latitude], [c.1, c.2],
            _c r.Warehouse ++ [120]⟩)) ∧
      (∀ stores2 : List StoreRow, stores2.Perm [⟨5, 6, 1⟩, ⟨7, 8, 0⟩] →
        ∃ out2, plot_network stores2 [(1, 2), (3, 4)] = some out2 ∧
          out2.edgePrimitives = stores2.length ∧
          out2.pointPrimitives = stores2.length + 2) :=
  plot_network_counts [⟨5, 6, 1⟩, ⟨7, 8, 0⟩] [(1, 2), (3, 4)] (by decide)

/-! ## Frame effect of the flow renderer -/

/-- C9: `plot_flows` never mutates the caller's lanes frame: all filtering
and the derived-column assignments act on fresh frames allocated after the
`.copy()`, so the frame the caller passed in is unchanged in the final
heap. -/
theorem plot_flows_preserves_caller (heap : List LanesDF) (ref : Nat)
    (centers : List (Int × Int)) (fts : List String) (bf : PdVal)
    (h : ref < heap.length) :
    (plot_flows_heap heap ref centers fts bf).1[ref]? = heap[ref]? := by
  simp only [plot_flows_heap, apply_ite Prod.fst]
  split_ifs with h1 h2 h3
  all_goals
    repeat (first
      | rfl
      | rw [List.getElem?_set_ne (by (try simp [List.length_append]); omega)]
      | rw [List.getElem?_append_left (by (try simp [List.length_append]); omega)])

/-- Witness for C9: a call that reaches the full rendering path leaves the
caller's frame untouched in the heap. -/
theorem plot_flows_preserves_caller_witness :
    (plot_flows_heap [⟨false, [{ lane_type := "outbound" }]⟩] 0 []
      ["outbound"] (PdVal.s "__ALL__")).1[0]? =
    [(⟨false, [{ lane_type := "outbound" }]⟩ : LanesDF)][0]? :=
  plot_flows_preserves_caller [⟨false, [{ lane_type := "outbound" }]⟩] 0 []
    ["outbound"] (PdVal.s "__ALL__") (by decide)
